import Mathlib

/-!
Verification of the Bay County court-records scraper
(scraper/Scraper.py and scraper/utils/ScraperUtils.py).

The Python code is shallowly embedded: pure fragments become Lean
functions on Nat/Int/List Char/String, fallible fragments return
Except PyErr or Option, and the stateful scan loops become explicit
folds over scripts of observed search outcomes.

Modelling conventions for Python primitives:
* str(n) for a natural number is pyStrNat (decimal, most significant
  digit first); int(s) is pyInt (optional sign followed by decimal
  digits; the whitespace and underscore forms accepted by Python never
  arise in this code's inputs); s.isnumeric() is pyIsNumeric (ASCII
  digits; wider Unicode digit classes never arise here); the membership
  test a in b on strings is pyIn a b.
* string slices s[:k], s[-k:], s[:-k] are take k, drop (length - k)
  and take (length - k) on the character list, which agree with Python
  for every length because Nat subtraction truncates at zero exactly
  where Python clamps the slice.
-/

namespace Scraper

set_option maxRecDepth 8192

/-- Python exceptions that the scraper's checkpoint and search code can
raise: IndexError, ValueError, AttributeError (with the missing
attribute's name) and selenium's ElementNotInteractableException. -/
inductive PyErr where
  | indexError : PyErr
  | valueError : PyErr
  | attributeError : String → PyErr
  | notInteractable : PyErr
deriving DecidableEq

/-- The decimal digit character for n < 10, as Python prints it. -/
def digitChar (n : Nat) : Char := Char.ofNat (48 + n)

/-- Fuel-indexed decimal rendering of a natural number, most significant
digit first.  Fuel n + 1 always suffices because the argument at least
halves every step. -/
def pyStrNatAux : Nat → Nat → List Char
  | 0, _ => []
  | fuel + 1, n => if n < 10 then [digitChar n] else pyStrNatAux fuel (n / 10) ++ [digitChar (n % 10)]

/-- Python's str(n) for a natural number n, as a character list. -/
def pyStrNat (n : Nat) : List Char := pyStrNatAux (n + 1) n

/-- Numeric value of a list of decimal digit characters, the core of
Python's int(). -/
def parseDigits (l : List Char) : Nat :=
  l.foldl (fun a c => 10 * a + (c.toNat - 48)) 0

/-- Python's int(s): an optional sign followed by at least one decimal
digit.  (Surrounding whitespace and underscore separators, which Python
also accepts, never occur in this scraper's inputs and are not
modelled.)  none stands for the ValueError int raises otherwise. -/
def pyInt (l : List Char) : Option Int :=
  if l.head? = some '-' then
    if l.tail ≠ [] ∧ l.tail.all Char.isDigit then some (-(parseDigits l.tail : Int)) else none
  else if l.head? = some '+' then
    if l.tail ≠ [] ∧ l.tail.all Char.isDigit then some ((parseDigits l.tail : Int)) else none
  else if l ≠ [] ∧ l.all Char.isDigit then some ((parseDigits l : Int)) else none

/-- Python's s.isnumeric() restricted to the ASCII digits that occur in
case numbers: true for a nonempty all-digit string. -/
def pyIsNumeric (l : List Char) : Bool := !l.isEmpty && l.all Char.isDigit

/-- Python's substring test needle in hay. -/
def pyIn (needle hay : String) : Bool :=
  (List.range (hay.toList.length + 1)).any (fun i => needle.toList.isPrefixOf (hay.toList.drop i))

/-- Python's format spec 0 followed by w (zero-pad to minimum width w),
as in the f-string pieces YY:02 and N:06 of begin_scrape. -/
def formatZeroPad (n w : Nat) : List Char :=
  List.replicate (w - (pyStrNat n).length) '0' ++ pyStrNat n

/-- Scraper.py line 149: the candidate case number
f-string of YY:02 and N:06 with YY = year % 100. -/
def case_number (year n : Nat) : String :=
  String.mk (formatZeroPad (year % 100) 2 ++ formatZeroPad n 6)

/-- Scraper.py line 118: last_year = 2000 + int(str(last_case_number)[:2]). -/
def parse_last_year (l : List Char) : Option Int :=
  (pyInt (l.take 2)).map (fun v => 2000 + v)

/-- Scraper.py lines 119-120: the last 4 characters are stripped when
the case-number field is not numeric. -/
def strip_nonnumeric (l : List Char) : List Char :=
  if pyIsNumeric l then l else l.take (l.length - 4)

/-- Scraper.py line 121: last_case = int(str(last_case_number)[-6:]),
applied after the non-numeric strip. -/
def parse_last_case (l : List Char) : Option Int :=
  pyInt ((strip_nonnumeric l).drop ((strip_nonnumeric l).length - 6))

/-- One step of Python readlines, consuming one character from the
right: a newline starts a new line (terminators are kept), any other
character extends the current first line. -/
def readStep (c : Char) (acc : List (List Char)) : List (List Char) :=
  if c = '\n' then ['\n'] :: acc
  else
    match acc with
    | [] => [[c]]
    | h :: t => (c :: h) :: t

/-- Python f.readlines(): split into lines keeping the terminators;
the empty file gives the empty list. -/
def pyReadlines (l : List Char) : List (List Char) := l.foldr readStep []

/-- One step of Python str.split(sep), consuming one character from the
right. -/
def splitStep (sep : Char) (c : Char) (acc : List (List Char)) : List (List Char) :=
  if c = sep then [] :: acc
  else
    match acc with
    | [] => [[c]]
    | h :: t => (c :: h) :: t

/-- Python s.split(sep) for a one-character separator: always returns at
least one (possibly empty) field. -/
def pySplit (sep : Char) (l : List Char) : List (List Char) := l.foldr (splitStep sep) [[]]

/-- ScraperUtils.get_last_csv_row: seek to max(size - 1024, 0), read the
remaining lines, and take the last one; lines[-1:][0] raises IndexError
on an empty file.  The model takes the file's content; a missing file is
handled by the caller (recover). -/
def get_last_csv_row (content : String) : Except PyErr String :=
  match (pyReadlines (content.toList.drop (content.toList.length - 1024))).getLast? with
  | none => .error .indexError
  | some l => .ok (String.mk l)

/-- Scraper.py lines 116-121 applied to an existing output file: read
the last row, take its fourth comma-separated field (IndexError when
missing), and parse the year and sequence out of it (ValueError when
either parse fails). -/
def recover_content (content : String) : Except PyErr (Int × Int) :=
  match get_last_csv_row content with
  | .error e => .error e
  | .ok line =>
    match (pySplit ',' line.toList).get? 3 with
    | none => .error .indexError
    | some lcn =>
      match parse_last_year lcn with
      | none => .error .valueError
      | some ly =>
        match parse_last_case lcn with
        | none => .error .valueError
        | some lc => .ok (ly, lc)

/-- Scraper.py lines 114-127: checkpoint recovery.  A missing output
file (FileNotFoundError, modelled as none) is caught and means a fresh
run; every other failure of reading or parsing propagates.  On success
it yields (last_year, last_case). -/
def recover : Option String → Except PyErr (Option (Int × Int))
  | none => .ok none
  | some content => (recover_content content).map some

/-- Fuel-indexed Python range(e, s, -1); the fuel (e - s).toNat is
exactly the number of elements. -/
def pyRangeDownAux : Nat → Int → Int → List Int
  | 0, _, _ => []
  | fuel + 1, e, s => if s < e then e :: pyRangeDownAux fuel (e - 1) s else []

/-- Python range(e, s, -1): the years scanned, newest first, stopping
before s. -/
def pyRangeDown (e s : Int) : List Int := pyRangeDownAux (e - s).toNat e s

/-- Scraper.py lines 130-134 and 188: the starting sequence number of
each scanned year.  While continuing is set, N starts at last_case + 1;
continuing is cleared at the end of the first year's iteration, so every
later year starts at 1. -/
def scanStartsGo (lastCase : Int) : Bool → List Int → List (Int × Int)
  | _, [] => []
  | cont, y :: ys => (y, if cont then lastCase + 1 else 1) :: scanStartsGo lastCase false ys

/-- Composition of checkpoint recovery with the year loop's starting
positions: on a fresh run the years run from the configured end year,
otherwise end_year is overwritten with the recovered last_year and the
first year resumes after the recovered last_case. -/
def begin_scrape_starts (fs : Option String) (startYear defaultEndYear : Int) :
    Except PyErr (List (Int × Int)) :=
  match recover fs with
  | .error e => .error e
  | .ok none => .ok (scanStartsGo 0 false (pyRangeDown defaultEndYear startYear))
  | .ok (some (ly, lc)) => .ok (scanStartsGo lc true (pyRangeDown ly startYear))

/-- Number of search_portal calls one iteration of the year loop makes
for an observed result set: one for the candidate itself plus, when more
than one associated case is returned, one per member. -/
def lookup_count (res : List String) : Nat :=
  1 + (if 1 < res.length then res.length else 0)

/-- Number of successfully resolved cases one iteration contributes:
none for a not-found lookup, each member individually for an
associated-case set, one otherwise. -/
def resolved_count (res : List String) : Nat :=
  if res.isEmpty then 0 else if 1 < res.length then res.length else 1

/-- Scraper.py lines 153-184, one iteration of the inner while loop as
far as the cookie-reset counter is concerned: the counter increments
after the candidate's search, once more per member of an
associated-case set, and at the end of the iteration the cookies are
cleared (flag true) and the counter zeroed whenever it has reached 5. -/
def scan_iter (c : Nat) (res : List String) : Nat × Bool :=
  let c1 := c + 1
  let c2 := if res.isEmpty then c1 else if 1 < res.length then c1 + res.length else c1
  if 5 ≤ c2 then (0, true) else (c2, false)

/-- The inner while loop run over a script of observed search results:
final counter value and the per-iteration cookie-clear flags. -/
def scan_run (c : Nat) : List (List String) → Nat × List Bool
  | [] => (c, [])
  | r :: rs =>
    let s := scan_iter c r
    let t := scan_run s.1 rs
    (t.1, s.2 :: t.2)

/-- One invocation's retry loop of search_portal (lines 459-498) in the
environment where the title is always exactly Search (the captcha was
judged solved incorrectly): every iteration's wait succeeds at once,
cookies are cleared and search_portal re-invoked recursively, its value
discarded; if that nested call diverges so does the loop, and if the
loop runs out of iterations the Python function falls through and
returns None (modelled some none). -/
def searchLoopPlain (recurse : Option (Option (List String))) : Nat → Option (Option (List String))
  | 0 => some none
  | i + 1 =>
    match recurse with
    | none => none
    | some _ => searchLoopPlain recurse i

/-- search_portal under a portal that always re-presents the plain
search page, with recursion depth bounded by fuel: none means the
execution exceeds that depth (the real Python recursion never
returns). -/
def search_portal_plain (connectThresh : Nat) : Nat → Option (Option (List String))
  | 0 => none
  | fuel + 1 => searchLoopPlain (search_portal_plain connectThresh fuel) connectThresh

/-- Scraper.py line 552: the RuntimeError message raised by load_page on
exhausting the retry budget, including the source's spelling of the
final sentence. -/
def load_fail_msg (url : String) (thresh : Nat) : String :=
  "Page " ++ url ++ " could not be loaded after " ++ String.mk (pyStrNat thresh) ++
    " attempts. Check connction."

/-- load_page's retry loop (lines 540-556) in the environment where the
awaited title never appears: remaining iterations count down, each one
performing one WebDriverWait attempt (the second component counts them);
at the last iteration the RuntimeError is raised, and with a zero budget
the loop body never runs and the function falls through normally. -/
def load_page_fail_go (url : String) (thresh : Nat) : Nat → Nat → Except String Unit × Nat
  | 0, a => (.ok (), a)
  | r + 1, a => if r = 0 then (.error (load_fail_msg url thresh), a + 1) else load_page_fail_go url thresh r (a + 1)

/-- load_page with every attempt failing: the loop starts with the full
budget and zero attempts made. -/
def load_page_all_fail (url : String) (thresh : Nat) : Except String Unit × Nat :=
  load_page_fail_go url thresh thresh 0

/-- Scraper.py line 392: the search page URL built from the default
portal_base flag (note the doubled slash the f-string produces). -/
def search_page_url : String :=
  "https://court.baycoclerk.com/BenchmarkWeb2//Home.aspx/Search"

/-- Result of one pass of search_portal's title classification:
restart the whole search (plain search page), a terminal set of case
numbers, or no branch taken (the loop waits again). -/
inductive EvalStep where
  | restartSearch : EvalStep
  | results : Finset String → EvalStep
  | fallthrough : EvalStep

/-- ScraperUtils.get_search_case_count, Bay branch (lines 380-383): find
the line CASES FOUND in the result table's text (list.index raises
ValueError when absent), read the next line (IndexError past the end)
and parse it as an int. -/
def get_search_case_count (tableLines : List String) : Except PyErr Int :=
  match tableLines.findIdx? (fun s => s = "CASES FOUND") with
  | none => .error .valueError
  | some i =>
    match tableLines.get? (i + 1) with
    | none => .error .indexError
    | some cell =>
      match pyInt cell.toList with
      | none => .error .valueError
      | some v => .ok v

/-- Scraper.py lines 465-493: classify the page reached after pressing
Search.  Exactly the title Search restarts the session; a title
containing Search Results: CaseNumber: reads the reported count and
returns the set of associated case numbers when it exceeds 1 and the
empty set otherwise; failing those, a title containing the case number
returns that case number as a singleton. -/
def evaluate_title (title case_num : String) (tableLines assocCells : List String) :
    Except PyErr EvalStep :=
  if title = "Search" then .ok .restartSearch
  else if pyIn "Search Results: CaseNumber:" title then
    match get_search_case_count tableLines with
    | .error e => .error e
    | .ok cnt => if 1 < cnt then .ok (.results assocCells.toFinset) else .ok (.results ∅)
  else if pyIn case_num title then .ok (.results {case_num})
  else .ok .fallthrough

/-- A selenium WebElement method call: click succeeds or raises
ElementNotInteractableException depending on the element's state, and
any other attribute name raises AttributeError. -/
def web_call (interactable : Bool) (method : String) : Except PyErr Unit :=
  if method = "click" then
    if interactable then .ok () else .error .notInteractable
  else .error (.attributeError method)

/-- Scraper.py select_case_input, lines 515-528, after the title wait
has succeeded: click the CaseNumber radio selector, then try to click
the caseNumber input; when that raises
ElementNotInteractableException, the recovery path clicks the Name
selector (through the attribute name cick exactly as written in the
source), clicks the CaseNumber selector again and retries the input
click.  The two flags say whether the input is interactable on the
first try and after the toggle; radio selectors are always
interactable. -/
def select_case_input (case_input_interactable toggled_interactable : Bool) :
    Except PyErr String :=
  match web_call true "click" with
  | .error e => .error e
  | .ok _ =>
    match web_call case_input_interactable "click" with
    | .ok _ => .ok "caseNumber"
    | .error PyErr.notInteractable =>
      (match web_call true "cick" with
       | .error e => .error e
       | .ok _ =>
         match web_call true "click" with
         | .error e => .error e
         | .ok _ =>
           match web_call toggled_interactable "click" with
           | .error e => .error e
           | .ok _ => .ok "caseNumber")
    | .error e => .error e

/-- One charge of a record, with each field as the string cell that
csv.writer renders into the output row (ScraperUtils.py write_csv). -/
structure Charge where
  count : String
  statute : String
  description : String
  level : String
  degree : String
  disposition : String
  disposition_date : String
  offense_date : String
  citation_number : String
  plea : String
  plea_date : String

/-- A scraped BenchmarkRecord, with each field as the string cell that
csv.writer renders. -/
structure BenchmarkRecord where
  id : String
  state : String
  county : String
  portal_id : String
  case_num : String
  agency_report_num : String
  party_id : String
  first_name : String
  middle_name : String
  last_name : String
  suffix : String
  dob : String
  race : String
  sex : String
  arrest_date : String
  filing_date : String
  offense_date : String
  division_name : String
  case_status : String
  defense_attorney : String
  public_defender : String
  judge : String
  charges : List Charge
  arresting_officer : String
  arresting_officer_badge_number : String

/-- The header row write_csv emits when the output file does not yet
exist (ScraperUtils.py lines 205-211). -/
def csv_header : List String :=
  ["_id", "_state", "_county", "PortalID", "CaseNum", "AgencyReportNum", "PartyID", "FirstName",
   "MiddleName", "LastName", "Suffix", "DOB", "Race", "Sex", "ArrestDate", "FilingDate",
   "OffenseDate", "DivisionName", "CaseStatus", "DefenseAttorney", "PublicDefender", "Judge",
   "ChargeCount", "ChargeStatute", "ChargeDescription", "ChargeLevel", "ChargeDegree",
   "ChargeDisposition", "ChargeDispositionDate", "ChargeOffenseDate", "ChargeCitationNum",
   "ChargePlea", "ChargePleaDate", "ArrestingOfficer", "ArrestingOfficerBadgeNumber"]

/-- The data row write_csv emits for one charge of a record
(ScraperUtils.py lines 192-200): the record's fields repeated alongside
that charge's fields, in the header's column order. -/
def record_charge_row (r : BenchmarkRecord) (c : Charge) : List String :=
  [r.id, r.state, r.county, r.portal_id, r.case_num, r.agency_report_num, r.party_id,
   r.first_name, r.middle_name, r.last_name, r.suffix, r.dob, r.race, r.sex,
   r.arrest_date, r.filing_date, r.offense_date, r.division_name, r.case_status,
   r.defense_attorney, r.public_defender, r.judge,
   c.count, c.statute, c.description, c.level, c.degree, c.disposition, c.disposition_date,
   c.offense_date, c.citation_number, c.plea, c.plea_date,
   r.arresting_officer, r.arresting_officer_badge_number]

/-- ScraperUtils.write_csv (lines 187-221) at the level of rows: when
the output file exists its rows are kept and one data row per charge is
appended; otherwise the file is created with the header followed by one
data row per charge. -/
def write_csv (existing : Option (List (List String))) (r : BenchmarkRecord) :
    List (List String) :=
  match existing with
  | some rows => rows ++ r.charges.map (record_charge_row r)
  | none => csv_header :: r.charges.map (record_charge_row r)

/-- A record with no charges, used to instantiate the write_csv
theorem. -/
def emptyChargesRecord : BenchmarkRecord where
  id := "i"
  state := "FL"
  county := "Bay"
  portal_id := "21000001"
  case_num := "21000001"
  agency_report_num := ""
  party_id := ""
  first_name := ""
  middle_name := ""
  last_name := ""
  suffix := ""
  dob := ""
  race := ""
  sex := ""
  arrest_date := ""
  filing_date := ""
  offense_date := ""
  division_name := ""
  case_status := ""
  defense_attorney := ""
  public_defender := ""
  judge := ""
  charges := []
  arresting_officer := ""
  arresting_officer_badge_number := ""

theorem parseDigits_append_singleton (l : List Char) (c : Char) :
    parseDigits (l ++ [c]) = 10 * parseDigits l + (c.toNat - 48) := by
  simp [parseDigits, List.foldl_append]

theorem digitChar_toNat_sub (m : Nat) (h : m < 10) : (digitChar m).toNat - 48 = m := by
  interval_cases m <;> decide

theorem digitChar_isDigit (m : Nat) (h : m < 10) : (digitChar m).isDigit = true := by
  interval_cases m <;> decide

theorem pyStrNatAux_parse : ∀ fuel n, n < fuel → parseDigits (pyStrNatAux fuel n) = n := by
  intro fuel
  induction fuel with
  | zero => intro n h; omega
  | succ f ih =>
    intro n h
    by_cases h10 : n < 10
    · simp only [pyStrNatAux, if_pos h10]
      have := digitChar_toNat_sub n h10
      simp [parseDigits]
      omega
    · have hn : 10 ≤ n := Nat.le_of_not_lt h10
      have hdiv : n / 10 < f := by
        have h1 : n / 10 < n := Nat.div_lt_self (by omega) (by omega)
        omega
      simp only [pyStrNatAux, if_neg h10]
      rw [parseDigits_append_singleton, ih _ hdiv, digitChar_toNat_sub _ (Nat.mod_lt n (by omega))]
      omega

theorem pyStrNat_parse (n : Nat) : parseDigits (pyStrNat n) = n :=
  pyStrNatAux_parse (n + 1) n (Nat.lt_succ_self n)

theorem pyStrNatAux_len_le : ∀ fuel n k, n < fuel → n < 10 ^ k → 1 ≤ k →
    (pyStrNatAux fuel n).length ≤ k := by
  intro fuel
  induction fuel with
  | zero => intro n k h; omega
  | succ f ih =>
    intro n k h hpow hk
    by_cases h10 : n < 10
    · simp [pyStrNatAux, if_pos h10]
      omega
    · have hn : 10 ≤ n := Nat.le_of_not_lt h10
      obtain ⟨k', rfl⟩ : ∃ k', k = k' + 1 := ⟨k - 1, by omega⟩
      have hk' : 1 ≤ k' := by
        by_contra hc
        have : k' = 0 := by omega
        subst this
        simp at hpow
        omega
      have hdivf : n / 10 < f := by
        have h1 : n / 10 < n := Nat.div_lt_self (by omega) (by omega)
        omega
      have hdivpow : n / 10 < 10 ^ k' := by
        rw [Nat.div_lt_iff_lt_mul (by omega)]
        calc n < 10 ^ (k' + 1) := hpow
        _ = 10 ^ k' * 10 := by rw [pow_succ]
      simp only [pyStrNatAux, if_neg h10, List.length_append, List.length_singleton]
      have := ih (n / 10) k' hdivf hdivpow hk'
      omega

theorem pyStrNat_len_le (n k : Nat) (hpow : n < 10 ^ k) (hk : 1 ≤ k) :
    (pyStrNat n).length ≤ k :=
  pyStrNatAux_len_le (n + 1) n k (Nat.lt_succ_self n) hpow hk

theorem pyStrNatAux_len_lower : ∀ fuel n k, n < fuel → 10 ^ k ≤ n →
    k + 1 ≤ (pyStrNatAux fuel n).length := by
  intro fuel
  induction fuel with
  | zero => intro n k h; omega
  | succ f ih =>
    intro n k h hpow
    by_cases h10 : n < 10
    · have hk0 : k = 0 := by
        by_contra hc
        have h1 : 1 ≤ k := by omega
        have : 10 ^ 1 ≤ 10 ^ k := Nat.pow_le_pow_right (by omega) h1
        simp at this
        omega
      subst hk0
      simp [pyStrNatAux, if_pos h10]
    · have hn : 10 ≤ n := Nat.le_of_not_lt h10
      have hdivf : n / 10 < f := by
        have h1 : n / 10 < n := Nat.div_lt_self (by omega) (by omega)
        omega
      simp only [pyStrNatAux, if_neg h10, List.length_append, List.length_singleton]
      cases k with
      | zero =>
        have := ih (n / 10) 0 hdivf (by simpa using Nat.one_le_div_iff (by omega) |>.mpr hn)
        omega
      | succ k' =>
        have hdivpow : 10 ^ k' ≤ n / 10 := by
          rw [Nat.le_div_iff_mul_le (by omega)]
          calc 10 ^ k' * 10 = 10 ^ (k' + 1) := by rw [pow_succ]
          _ ≤ n := hpow
        have := ih (n / 10) k' hdivf hdivpow
        omega

theorem pyStrNat_len_lower (n k : Nat) (hpow : 10 ^ k ≤ n) :
    k + 1 ≤ (pyStrNat n).length :=
  pyStrNatAux_len_lower (n + 1) n k (Nat.lt_succ_self n) hpow

theorem pyStrNatAux_digits : ∀ fuel n, n < fuel → ∀ c ∈ pyStrNatAux fuel n, c.isDigit = true := by
  intro fuel
  induction fuel with
  | zero => intro n h; omega
  | succ f ih =>
    intro n h c hc
    by_cases h10 : n < 10
    · simp only [pyStrNatAux, if_pos h10, List.mem_singleton] at hc
      subst hc
      exact digitChar_isDigit n h10
    · have hn : 10 ≤ n := Nat.le_of_not_lt h10
      have hdivf : n / 10 < f := by
        have h1 : n / 10 < n := Nat.div_lt_self (by omega) (by omega)
        omega
      simp only [pyStrNatAux, if_neg h10, List.mem_append, List.mem_singleton] at hc
      rcases hc with hc | hc
      · exact ih (n / 10) hdivf c hc
      · subst hc
        exact digitChar_isDigit _ (Nat.mod_lt n (by omega))

theorem pyStrNat_digits (n : Nat) : ∀ c ∈ pyStrNat n, c.isDigit = true :=
  pyStrNatAux_digits (n + 1) n (Nat.lt_succ_self n)

theorem pyStrNat_len_pos (n : Nat) : 1 ≤ (pyStrNat n).length := by
  show 1 ≤ (pyStrNatAux (n + 1) n).length
  simp only [pyStrNatAux]
  split
  · simp
  · simp [List.length_append]

theorem foldl_step_zero_replicate :
    ∀ k, List.foldl (fun a c => 10 * a + (c.toNat - 48)) 0 (List.replicate k '0') = 0 := by
  intro k
  induction k with
  | zero => rfl
  | succ k ih => simpa [List.replicate_succ, List.foldl_cons] using ih

theorem formatZeroPad_parse (n w : Nat) : parseDigits (formatZeroPad n w) = n := by
  have h := foldl_step_zero_replicate (w - (pyStrNat n).length)
  simp only [formatZeroPad, parseDigits, List.foldl_append, h]
  exact pyStrNat_parse n

theorem formatZeroPad_len (n w : Nat) (h : (pyStrNat n).length ≤ w) :
    (formatZeroPad n w).length = w := by
  simp only [formatZeroPad, List.length_append, List.length_replicate]
  omega

theorem formatZeroPad_digits (n w : Nat) : ∀ c ∈ formatZeroPad n w, c.isDigit = true := by
  intro c hc
  simp only [formatZeroPad, List.mem_append, List.mem_replicate] at hc
  rcases hc with hc | hc
  · rw [hc.2]; decide
  · exact pyStrNat_digits n c hc

theorem pyStrNat_ne_nil (n : Nat) : pyStrNat n ≠ [] :=
  List.ne_nil_of_length_pos (pyStrNat_len_pos n)

theorem formatZeroPad_ne_nil (n w : Nat) : formatZeroPad n w ≠ [] := by
  intro h
  simp only [formatZeroPad, List.append_eq_nil] at h
  exact pyStrNat_ne_nil n h.2

theorem pyInt_digits (l : List Char) (h1 : l ≠ []) (h2 : ∀ c ∈ l, c.isDigit = true) :
    pyInt l = some ((parseDigits l : Nat) : Int) := by
  obtain ⟨c, t, rfl⟩ := List.exists_cons_of_ne_nil h1
  have hc : c.isDigit = true := h2 c (List.mem_cons_self c t)
  have hcm : c ≠ '-' := by
    intro h
    subst h
    simp at hc
  have hcp : c ≠ '+' := by
    intro h
    subst h
    simp at hc
  have hall : (c :: t).all Char.isDigit = true := by
    rw [List.all_eq_true]
    exact h2
  simp only [pyInt, List.head?_cons, List.tail_cons]
  rw [if_neg (by simp [hcm]), if_neg (by simp [hcp]), if_pos ⟨List.cons_ne_nil c t, hall⟩]

theorem pyIsNumeric_digits (l : List Char) (h1 : l ≠ []) (h2 : ∀ c ∈ l, c.isDigit = true) :
    pyIsNumeric l = true := by
  obtain ⟨c, t, rfl⟩ := List.exists_cons_of_ne_nil h1
  simp only [pyIsNumeric, List.isEmpty_cons, Bool.not_false, Bool.true_and, List.all_eq_true]
  exact h2

theorem case_number_toList (year n : Nat) :
    (case_number year n).toList = formatZeroPad (year % 100) 2 ++ formatZeroPad n 6 := rfl

/-- C3 counterexample: for the out-of-range sequence 1000000 (which
exceeds 999999), the scanner's candidate generator raises nothing and
does produce a candidate case-number string, namely the 9-character
string 211000000 (for year 2021); there is no InvalidSequence failure
path in the code. -/
theorem c3_generate_overflow_counterexample :
    case_number 2021 1000000 = "211000000" ∧ (case_number 2021 1000000).toList.length = 9 := by
  constructor <;> rfl

/-- C3 amended: generate never fails.  For every sequence exceeding
999999 the f-string zero-padding, being only a minimum width, still
produces a candidate string, one whose length exceeds the usual 8
characters because the sequence part has more than 6 digits. -/
theorem case_number_overflow_produces_string (year n : Nat) (h : 999999 < n) :
    8 < (case_number year n).toList.length := by
  rw [case_number_toList, List.length_append]
  have h2 : 2 ≤ (formatZeroPad (year % 100) 2).length := by
    simp [formatZeroPad]
    omega
  have h7 : 7 ≤ (formatZeroPad n 6).length := by
    have hl : 7 ≤ (pyStrNat n).length := by
      have := pyStrNat_len_lower n 6 (by norm_num; omega)
      omega
    simp [formatZeroPad]
    omega
  omega

/-- C3 witness: the amended statement instantiated at sequence
1000000. -/
theorem case_number_overflow_witness :
    999999 < 1000000 ∧ 8 < (case_number 2021 1000000).toList.length :=
  ⟨by decide, case_number_overflow_produces_string 2021 1000000 (by decide)⟩

theorem take_len_append (a b : List Char) (k : Nat) (h : a.length = k) : (a ++ b).take k = a := by
  subst h
  simp

theorem drop_len_append (a b : List Char) (k : Nat) (h : a.length = k) : (a ++ b).drop k = b := by
  subst h
  simp

theorem formatZeroPad_len_100 (m : Nat) (h : m < 100) : (formatZeroPad m 2).length = 2 :=
  formatZeroPad_len m 2 (pyStrNat_len_le m 2 (by norm_num; omega) (by norm_num))

theorem formatZeroPad_len_6 (n : Nat) (h : n ≤ 999999) : (formatZeroPad n 6).length = 6 :=
  formatZeroPad_len n 6 (pyStrNat_len_le n 6 (by norm_num; omega) (by norm_num))

theorem pad_pair_digits (yy n : Nat) :
    ∀ c ∈ formatZeroPad yy 2 ++ formatZeroPad n 6, c.isDigit = true := by
  intro c hc
  rcases List.mem_append.mp hc with hc | hc
  · exact formatZeroPad_digits _ _ c hc
  · exact formatZeroPad_digits _ _ c hc

theorem pad_pair_ne_nil (yy n : Nat) : formatZeroPad yy 2 ++ formatZeroPad n 6 ≠ [] := by
  intro h
  simp only [List.append_eq_nil] at h
  exact formatZeroPad_ne_nil _ _ h.1

theorem parse_last_year_pad (yy n : Nat) (hyy : yy < 100) :
    parse_last_year (formatZeroPad yy 2 ++ formatZeroPad n 6) = some (2000 + (yy : Int)) := by
  have hla : (formatZeroPad yy 2).length = 2 := formatZeroPad_len_100 _ hyy
  rw [parse_last_year, take_len_append _ _ _ hla,
    pyInt_digits _ (formatZeroPad_ne_nil _ _) (formatZeroPad_digits _ _),
    formatZeroPad_parse]
  rfl

theorem parse_last_case_pad (yy n : Nat) (hyy : yy < 100) (hn : n ≤ 999999) :
    parse_last_case (formatZeroPad yy 2 ++ formatZeroPad n 6) = some (n : Int) := by
  have hla : (formatZeroPad yy 2).length = 2 := formatZeroPad_len_100 _ hyy
  have hlb : (formatZeroPad n 6).length = 6 := formatZeroPad_len_6 n hn
  rw [parse_last_case, strip_nonnumeric,
    if_pos (pyIsNumeric_digits _ (pad_pair_ne_nil yy n) (pad_pair_digits yy n))]
  have hlen : (formatZeroPad yy 2 ++ formatZeroPad n 6).length = 8 := by
    rw [List.length_append, hla, hlb]
  rw [hlen]
  show pyInt ((formatZeroPad yy 2 ++ formatZeroPad n 6).drop 2) = some (n : Int)
  rw [drop_len_append _ _ _ hla,
    pyInt_digits _ (formatZeroPad_ne_nil _ _) (formatZeroPad_digits _ _),
    formatZeroPad_parse]

/-- C4: for every year the two-digit scheme can represent (2000-2099)
and every sequence up to 999999, parsing the generated portal string
recovers exactly the year (leading 2 characters plus 2000) and the
sequence (trailing 6 characters). -/
theorem c4_parse_generate_roundtrip (year n : Nat)
    (h1 : 2000 ≤ year) (h2 : year ≤ 2099) (h3 : n ≤ 999999) :
    parse_last_year (case_number year n).toList = some (year : Int) ∧
    parse_last_case (case_number year n).toList = some (n : Int) := by
  have hmod : year % 100 < 100 := Nat.mod_lt year (by omega)
  rw [case_number_toList]
  constructor
  · rw [parse_last_year_pad (year % 100) n hmod]
    congr 1
    omega
  · exact parse_last_case_pad (year % 100) n hmod h3

/-- C4 witness: the round trip at year 2021, sequence 42. -/
theorem c4_roundtrip_witness :
    2000 ≤ 2021 ∧ 2021 ≤ 2099 ∧ 42 ≤ 999999 ∧
    (parse_last_year (case_number 2021 42).toList = some (2021 : Int) ∧
     parse_last_case (case_number 2021 42).toList = some (42 : Int)) :=
  ⟨by decide, by decide, by decide,
    c4_parse_generate_roundtrip 2021 42 (by decide) (by decide) (by decide)⟩

theorem recover_some_eq_map (c : String) : recover (some c) = (recover_content c).map some := rfl

theorem recover_some_ne_ok_none (c : String) : recover (some c) ≠ .ok none := by
  intro h
  rw [recover_some_eq_map] at h
  cases hx : recover_content c with
  | error e => rw [hx] at h; simp [Except.map] at h
  | ok v => rw [hx] at h; simp [Except.map] at h

/-- C6: checkpoint recovery yields the fresh-run answer exactly when no
prior output file exists; an existing but empty file, a last line with
fewer than four comma-separated fields, and a case-number field whose
leading characters are not digits all end in an uncaught exception
(fatal at startup) instead of being treated as no prior data. -/
theorem c6_recover_fresh_iff_missing :
    (∀ fs : Option String, recover fs = .ok none ↔ fs = none) ∧
    recover (some "") = .error .indexError ∧
    recover (some "a,b") = .error .indexError ∧
    recover (some "q,w,e,zz123,r") = .error .valueError := by
  refine ⟨?_, rfl, rfl, rfl⟩
  intro fs
  cases fs with
  | none => simp [recover]
  | some c =>
    constructor
    · intro h
      exact absurd h (recover_some_ne_ok_none c)
    · intro h
      cases h

/-- C6 witness: the equivalence applied at a missing file. -/
theorem c6_recover_witness : recover none = .ok none :=
  (c6_recover_fresh_iff_missing.1 none).mpr rfl

theorem pyReadlines_no_newline :
    ∀ l : List Char, l ≠ [] → (∀ c ∈ l, c ≠ '\n') → pyReadlines l = [l] := by
  intro l
  induction l with
  | nil => intro h; exact absurd rfl h
  | cons c t ih =>
    intro _ hc
    have hcn : c ≠ '\n' := hc c (List.mem_cons_self c t)
    show readStep c (pyReadlines t) = [c :: t]
    by_cases ht : t = []
    · subst ht
      show readStep c [] = [[c]]
      simp only [readStep, if_neg hcn]
    · rw [ih ht (fun x hx => hc x (List.mem_cons_of_mem c hx))]
      simp only [readStep, if_neg hcn]

theorem pySplit_no_sep (sep : Char) :
    ∀ l : List Char, (∀ c ∈ l, c ≠ sep) → pySplit sep l = [l] := by
  intro l
  induction l with
  | nil => intro; rfl
  | cons c t ih =>
    intro hc
    show splitStep sep c (pySplit sep t) = [c :: t]
    rw [ih (fun x hx => hc x (List.mem_cons_of_mem c hx))]
    simp [splitStep, hc c (List.mem_cons_self c t)]

theorem pySplit_append (sep : Char) (p l : List Char) :
    pySplit sep (p ++ l) = List.foldr (splitStep sep) (pySplit sep l) p := by
  simp [pySplit, List.foldr_append]

theorem pyRangeDown_pos (e s : Int) (h : s < e) :
    pyRangeDown e s = e :: pyRangeDown (e - 1) s := by
  show pyRangeDownAux (e - s).toNat e s = _
  have hk : (e - s).toNat = ((e - 1) - s).toNat + 1 := by omega
  rw [hk]
  simp only [pyRangeDownAux, if_pos h]
  rfl

theorem pyRangeDown_nonpos (e s : Int) (h : e ≤ s) : pyRangeDown e s = [] := by
  show pyRangeDownAux (e - s).toNat e s = []
  have hk : (e - s).toNat = 0 := by omega
  rw [hk]
  rfl

theorem scanStartsGo_false (lc : Int) :
    ∀ ys : List Int, scanStartsGo lc false ys = ys.map (fun y => (y, 1)) := by
  intro ys
  induction ys with
  | nil => rfl
  | cons y t ih => simp [scanStartsGo, ih]

theorem get_last_csv_row_ok (content : String) (l : List Char)
    (h : (pyReadlines (content.toList.drop (content.toList.length - 1024))).getLast? = some l) :
    get_last_csv_row content = .ok (String.mk l) := by
  unfold get_last_csv_row
  rw [h]

theorem recover_content_ok (content line : String) (lcn : List Char) (ly lc : Int)
    (h1 : get_last_csv_row content = .ok line)
    (h2 : (pySplit ',' line.toList).get? 3 = some lcn)
    (h3 : parse_last_year lcn = some ly)
    (h4 : parse_last_case lcn = some lc) :
    recover_content content = .ok (ly, lc) := by
  unfold recover_content
  simp only [h1, h2, h3, h4]

theorem begin_scrape_starts_resume (fs : Option String) (sy de ly lc : Int)
    (h : recover fs = .ok (some (ly, lc))) :
    begin_scrape_starts fs sy de = .ok (scanStartsGo lc true (pyRangeDown ly sy)) := by
  unfold begin_scrape_starts
  rw [h]

/-- C5: recovering a checkpoint from a prior output whose last line's
case-number field is the 8-digit string YYNNNNNN makes the restarted
run's first scanned year 20YY starting at sequence NNNNNN + 1, and every
subsequent (older) year down to the start year begins at sequence 1. -/
theorem c5_checkpoint_resume (yy n : Nat) (startYear defEnd : Int)
    (hyy : yy < 100) (hn : n ≤ 999999) (hs : startYear < 2000 + (yy : Int)) :
    begin_scrape_starts
        (some (String.mk
          (['a', ',', 'b', ',', 'c', ','] ++ (formatZeroPad yy 2 ++ formatZeroPad n 6))))
        startYear defEnd =
      .ok ((2000 + (yy : Int), (n : Int) + 1) ::
        (pyRangeDown (2000 + (yy : Int) - 1) startYear).map (fun y => (y, 1))) := by
  have hla : (formatZeroPad yy 2).length = 2 := formatZeroPad_len_100 _ hyy
  have hlb : (formatZeroPad n 6).length = 6 := formatZeroPad_len_6 n hn
  have hlen14 :
      (['a', ',', 'b', ',', 'c', ','] ++ (formatZeroPad yy 2 ++ formatZeroPad n 6)).length
        = 14 := by
    simp [List.length_append, hla, hlb]
  have hnonl : ∀ c ∈ ['a', ',', 'b', ',', 'c', ','] ++ (formatZeroPad yy 2 ++ formatZeroPad n 6),
      c ≠ '\n' := by
    intro c hc
    rcases List.mem_append.mp hc with hc | hc
    · fin_cases hc <;> decide
    · have hd := pad_pair_digits yy n c hc
      intro h
      subst h
      exact absurd hd (by decide)
  have htl : (String.mk (['a', ',', 'b', ',', 'c', ','] ++
      (formatZeroPad yy 2 ++ formatZeroPad n 6))).toList =
      ['a', ',', 'b', ',', 'c', ','] ++ (formatZeroPad yy 2 ++ formatZeroPad n 6) := rfl
  have hgl : (pyReadlines ((String.mk (['a', ',', 'b', ',', 'c', ','] ++
      (formatZeroPad yy 2 ++ formatZeroPad n 6))).toList.drop
        ((String.mk (['a', ',', 'b', ',', 'c', ','] ++
          (formatZeroPad yy 2 ++ formatZeroPad n 6))).toList.length - 1024))).getLast? =
      some (['a', ',', 'b', ',', 'c', ','] ++ (formatZeroPad yy 2 ++ formatZeroPad n 6)) := by
    rw [htl, hlen14, show (14 : Nat) - 1024 = 0 from rfl, List.drop_zero,
      pyReadlines_no_newline _ (by simp) hnonl]
    rfl
  have hlast : get_last_csv_row (String.mk
      (['a', ',', 'b', ',', 'c', ','] ++ (formatZeroPad yy 2 ++ formatZeroPad n 6))) =
      .ok (String.mk
        (['a', ',', 'b', ',', 'c', ','] ++ (formatZeroPad yy 2 ++ formatZeroPad n 6))) :=
    get_last_csv_row_ok _ _ hgl
  have hsplit : pySplit ','
      (['a', ',', 'b', ',', 'c', ','] ++ (formatZeroPad yy 2 ++ formatZeroPad n 6)) =
      [['a'], ['b'], ['c'], formatZeroPad yy 2 ++ formatZeroPad n 6] := by
    rw [pySplit_append, pySplit_no_sep ',' _ (fun c hc => by
      have hd := pad_pair_digits yy n c hc
      intro h
      subst h
      exact absurd hd (by decide))]
    rfl
  have hfield : (pySplit ',' (String.mk (['a', ',', 'b', ',', 'c', ','] ++
      (formatZeroPad yy 2 ++ formatZeroPad n 6))).toList).get? 3 =
      some (formatZeroPad yy 2 ++ formatZeroPad n 6) := by
    rw [htl, hsplit]
    rfl
  have hrc : recover_content (String.mk
      (['a', ',', 'b', ',', 'c', ','] ++ (formatZeroPad yy 2 ++ formatZeroPad n 6))) =
      .ok (2000 + (yy : Int), (n : Int)) :=
    recover_content_ok _ _ _ _ _ hlast hfield (parse_last_year_pad yy n hyy)
      (parse_last_case_pad yy n hyy hn)
  have hrec : recover (some (String.mk
      (['a', ',', 'b', ',', 'c', ','] ++ (formatZeroPad yy 2 ++ formatZeroPad n 6)))) =
      .ok (some (2000 + (yy : Int), (n : Int))) := by
    rw [recover_some_eq_map, hrc]
    rfl
  rw [begin_scrape_starts_resume _ _ _ _ _ hrec, pyRangeDown_pos _ _ hs]
  simp only [scanStartsGo, if_true]
  rw [scanStartsGo_false]

/-- C5 witness: resuming from last case number 21000005 with start year
2018 scans 2021 from sequence 6, then 2020 and 2019 from sequence 1. -/
theorem c5_checkpoint_resume_witness :
    (21 : Nat) < 100 ∧ (5 : Nat) ≤ 999999 ∧ (2018 : Int) < 2000 + ((21 : Nat) : Int) ∧
    begin_scrape_starts
        (some (String.mk
          (['a', ',', 'b', ',', 'c', ','] ++ (formatZeroPad 21 2 ++ formatZeroPad 5 6))))
        2018 0 =
      .ok ((2000 + ((21 : Nat) : Int), ((5 : Nat) : Int) + 1) ::
        (pyRangeDown (2000 + ((21 : Nat) : Int) - 1) 2018).map (fun y => (y, 1))) :=
  ⟨by decide, by decide, by norm_num,
    c5_checkpoint_resume 21 5 2018 0 (by decide) (by decide) (by norm_num)⟩

theorem scan_iter_fst_lt (c : Nat) (r : List String) : (scan_iter c r).1 < 5 := by
  simp only [scan_iter]
  split_ifs <;> simp <;> omega

/-- C1 counterexample: a not-found lookup advances the reset counter
(from 0 to 1, with no clear), and in a run whose outcomes are one
not-found followed by four single-case finds the cookie clear fires at
the fifth iteration even though only 4 cases were successfully resolved
by then, so the clear is not aligned with every 5th resolved case. -/
theorem c1_reset_counter_counterexample :
    scan_iter 0 [] = (1, false) ∧
    (scan_run 0 [[], ["a"], ["b"], ["c"], ["d"]]).2 = [false, false, false, false, true] ∧
    ([[], ["a"], ["b"], ["c"], ["d"]].map resolved_count).sum = 4 :=
  ⟨rfl, rfl, rfl⟩

/-- C1 amended: the cookie clear fires at the end of exactly those
iterations of the year loop at which the number of search-portal
lookups since the last reset (one per candidate searched, including
not-found lookups, plus one per member of an associated-case set)
reaches at least 5, and the counter then resets to 0 and otherwise
carries the lookup total, staying below 5 between iterations. -/
theorem c1_reset_cadence_amended (c : Nat) (res : List String) (script : List (List String))
    (h : c < 5) :
    ((scan_iter c res).2 = true ↔ 5 ≤ c + lookup_count res) ∧
    ((scan_iter c res).1 = if 5 ≤ c + lookup_count res then 0 else c + lookup_count res) ∧
    (scan_run c script).1 < 5 := by
  refine ⟨?_, ?_, ?_⟩
  · rcases res with _ | ⟨a, t⟩ <;>
      simp only [scan_iter, lookup_count, List.isEmpty_nil, List.isEmpty_cons, List.length_nil,
        List.length_cons, if_true, if_false, Bool.false_eq_true] <;>
      split_ifs <;> simp_all <;> omega
  · rcases res with _ | ⟨a, t⟩ <;>
      simp only [scan_iter, lookup_count, List.isEmpty_nil, List.isEmpty_cons, List.length_nil,
        List.length_cons, if_true, if_false, Bool.false_eq_true] <;>
      split_ifs <;> simp_all <;> omega
  · induction script generalizing c with
    | nil => simpa [scan_run] using h
    | cons r rs ih =>
      simp only [scan_run]
      exact ih _ (scan_iter_fst_lt c r)

/-- C1 witness: the amended characterization at counter 0 with a
single-case result and a two-iteration script. -/
theorem c1_reset_cadence_witness :
    0 < 5 ∧
    (((scan_iter 0 ["a"]).2 = true ↔ 5 ≤ 0 + lookup_count ["a"]) ∧
     ((scan_iter 0 ["a"]).1 = if 5 ≤ 0 + lookup_count ["a"] then 0 else 0 + lookup_count ["a"]) ∧
     (scan_run 0 [["a"], ["b"]]).1 < 5) :=
  ⟨by decide, c1_reset_cadence_amended 0 ["a"] [["a"], ["b"]] (by decide)⟩

/-- C2 counterexample: with a retry budget of 3, allowing as many as 50
nested restarts still yields no terminal outcome when the portal keeps
re-presenting the plain search page, so the number of restarts is not
bounded by the budget and the search does not terminate. -/
theorem c2_plain_page_restart_counterexample : search_portal_plain 3 50 = none := rfl

/-- C2 amended: when evaluation finds the plain search page the session
does clear cookies and restart from page loading for the same case
number, but the restart is a self-recursive call with a fresh retry
budget, so while the plain page persists the search yields no outcome
at any recursion depth: it never terminates. -/
theorem c2_plain_page_diverges (thresh : Nat) (h : 1 ≤ thresh) :
    ∀ fuel, search_portal_plain thresh fuel = none := by
  intro fuel
  induction fuel with
  | zero => rfl
  | succ f ih =>
    show searchLoopPlain (search_portal_plain thresh f) thresh = none
    rw [ih]
    obtain ⟨t, rfl⟩ : ∃ t, thresh = t + 1 := ⟨thresh - 1, by omega⟩
    rfl

/-- C2 witness: divergence at budget 3, recursion depth 7. -/
theorem c2_plain_page_diverges_witness : 1 ≤ 3 ∧ search_portal_plain 3 7 = none :=
  ⟨by decide, c2_plain_page_diverges 3 (by decide) 7⟩

/-- C7: after a successful submission (title differs from the plain
search page), a results-listing title with reported count above 1
yields the set of listed associated case numbers, a results-listing
title with count at most 1 yields the empty not-found set, and
otherwise a title containing the submitted case number yields that case
number as a singleton. -/
theorem c7_outcome_classification (title cn : String) (tbl cells : List String) (cnt : Int)
    (hne : title ≠ "Search") :
    (pyIn "Search Results: CaseNumber:" title = true →
      get_search_case_count tbl = .ok cnt →
        ((1 < cnt → evaluate_title title cn tbl cells = .ok (.results cells.toFinset)) ∧
         (cnt ≤ 1 → evaluate_title title cn tbl cells = .ok (.results ∅)))) ∧
    (pyIn "Search Results: CaseNumber:" title = false → pyIn cn title = true →
      evaluate_title title cn tbl cells = .ok (.results {cn})) := by
  constructor
  · intro hres hcnt
    constructor
    · intro hgt
      unfold evaluate_title
      rw [if_neg hne, if_pos hres]
      simp only [hcnt]
      rw [if_pos hgt]
    · intro hle
      unfold evaluate_title
      rw [if_neg hne, if_pos hres]
      simp only [hcnt]
      rw [if_neg (by omega)]
  · intro hres hcn
    unfold evaluate_title
    rw [if_neg hne, if_neg (by simp [hres]), if_pos hcn]

/-- C7 witness: the three classification branches at concrete pages:
a results listing reporting 3 matches, a results listing reporting 1,
and a single-case page titled with the case number. -/
theorem c7_outcome_classification_witness :
    evaluate_title "Search Results: CaseNumber: 21000001" "21000001" ["CASES FOUND", "3"]
        ["21000002", "21000003"] = .ok (.results (["21000002", "21000003"].toFinset)) ∧
    evaluate_title "Search Results: CaseNumber: 21000001" "21000001" ["CASES FOUND", "1"] [] =
      .ok (.results ∅) ∧
    evaluate_title "21000001 CASE INFO" "21000001" [] [] = .ok (.results {"21000001"}) :=
  ⟨((c7_outcome_classification "Search Results: CaseNumber: 21000001" "21000001"
      ["CASES FOUND", "3"] ["21000002", "21000003"] 3 (by decide)).1 (by decide) rfl).1
        (by decide),
   ((c7_outcome_classification "Search Results: CaseNumber: 21000001" "21000001"
      ["CASES FOUND", "1"] [] 1 (by decide)).1 (by decide) rfl).2 (by decide),
   (c7_outcome_classification "21000001 CASE INFO" "21000001" [] [] 0 (by decide)).2
     (by decide) (by decide)⟩

theorem load_page_fail_go_spec (url : String) (thresh : Nat) :
    ∀ r a, 1 ≤ r →
      load_page_fail_go url thresh r a = (.error (load_fail_msg url thresh), a + r) := by
  intro r
  induction r with
  | zero => intro a h; omega
  | succ r' ih =>
    intro a h
    show load_page_fail_go url thresh (r' + 1) a = _
    simp only [load_page_fail_go]
    by_cases h0 : r' = 0
    · subst h0
      simp
    · rw [if_neg h0, ih (a + 1) (by omega)]
      congr 1
      omega

/-- C8 amended: with every load attempt failing, load_page makes
exactly connect_thresh wait attempts and then raises a fatal RuntimeError
whose message carries the page URL and the attempt count (but not the
case number being searched). -/
theorem c8_load_page_fatal_after_thresh (url : String) (thresh : Nat) (h : 1 ≤ thresh) :
    load_page_all_fail url thresh = (.error (load_fail_msg url thresh), thresh) := by
  unfold load_page_all_fail
  simpa using load_page_fail_go_spec url thresh thresh 0 h

/-- C8 witness: the amended statement at the search page URL with
budget 3. -/
theorem c8_load_page_fatal_witness :
    1 ≤ 3 ∧
    load_page_all_fail search_page_url 3 = (.error (load_fail_msg search_page_url 3), 3) :=
  ⟨by decide, c8_load_page_fatal_after_thresh search_page_url 3 (by decide)⟩

/-- C8 counterexample: searching case 21000001 with budget 3 and every
load failing does raise the fatal error after exactly 3 attempts, but
the error message does not carry the case number: it names only the URL
and the attempt count. -/
theorem c8_error_lacks_case_number_counterexample :
    (load_page_all_fail search_page_url 3).2 = 3 ∧
    (load_page_all_fail search_page_url 3).1 = .error (load_fail_msg search_page_url 3) ∧
    pyIn "21000001" (load_fail_msg search_page_url 3) = false :=
  ⟨rfl, rfl, rfl⟩

/-- C9: when the case-number input is present but not interactable on
the first click, the recovery path dies with an AttributeError on the
misspelled method name cick before it can toggle the selectors, instead
of completing without error; the non-recovery path returns the usable
input normally. -/
theorem c9_recovery_path_attribute_error :
    select_case_input false true = .error (.attributeError "cick") ∧
    select_case_input true true = .ok "caseNumber" :=
  ⟨rfl, rfl⟩

/-- C10: sinking a record appends exactly one CSV row per charge, each
repeating the record's fields alongside that charge's fields; with an
empty charge list the existing content is unchanged, and a missing file
gets only the header row. -/
theorem c10_write_csv_row_per_charge (rows : List (List String)) (r : BenchmarkRecord) :
    write_csv (some rows) r = rows ++ r.charges.map (record_charge_row r) ∧
    write_csv none r = csv_header :: r.charges.map (record_charge_row r) ∧
    (write_csv (some rows) r).length = rows.length + r.charges.length ∧
    (r.charges = [] → write_csv (some rows) r = rows ∧ write_csv none r = [csv_header]) := by
  refine ⟨rfl, rfl, by simp [write_csv], ?_⟩
  intro h
  constructor
  · show rows ++ r.charges.map (record_charge_row r) = rows
    rw [h]
    simp
  · show csv_header :: r.charges.map (record_charge_row r) = [csv_header]
    rw [h]
    simp

/-- C10 witness: a record with no charges appends nothing to an
existing file and creates a header-only file otherwise. -/
theorem c10_write_csv_witness :
    emptyChargesRecord.charges = [] ∧
    write_csv (some [["x"]]) emptyChargesRecord = [["x"]] ∧
    write_csv none emptyChargesRecord = [csv_header] :=
  ⟨rfl,
   ((c10_write_csv_row_per_charge [["x"]] emptyChargesRecord).2.2.2 rfl).1,
   ((c10_write_csv_row_per_charge [["x"]] emptyChargesRecord).2.2.2 rfl).2⟩

end Scraper
